import Mathlib

/-!
Verification of the json2openapi schema inferencer and document assembler
(`src/json2openapi.py`), shallowly embedded in Lean.

Python dictionaries preserve insertion order, so every dictionary is
embedded as an association list in insertion order.  The document built by
`main` keys its `responses` mapping by an integer (the HTTP response code)
while all other keys are strings, so dictionary keys are a sum of the two.
-/

namespace Json2openapi

/-- A Python dictionary key as used by the program: a string or an int
(the response code is keyed as an int). -/
inductive JKey where
  | str : String → JKey
  | int : Int → JKey
deriving DecidableEq, Repr

/-- A decoded JSON/YAML value (the data model of section 3 of the design):
null, boolean, integer, float, string, ordered sequence, or mapping with
insertion order preserved.  Floats are carried as rationals: the program
never computes with them, it only tests them against zero and echoes them
back as examples. -/
inductive Json where
  | null : Json
  | bool : Bool → Json
  | int : Int → Json
  | float : Rat → Json
  | str : String → Json
  | arr : List Json → Json
  | obj : List (JKey × Json) → Json
deriving Repr

/-- Python `val is None`. -/
def isNone : Json → Bool
  | .null => true
  | _ => false

/-- Python `isinstance(val, str)`. -/
def isInstStr : Json → Bool
  | .str _ => true
  | _ => false

/-- Python `isinstance(val, int)`.  In Python, `bool` is a subclass of
`int`, so booleans satisfy this test. -/
def isInstInt : Json → Bool
  | .int _ => true
  | .bool _ => true
  | _ => false

/-- Python `isinstance(val, float)`. -/
def isInstFloat : Json → Bool
  | .float _ => true
  | _ => false

/-- Python `isinstance(val, bool)`. -/
def isInstBool : Json → Bool
  | .bool _ => true
  | _ => false

/-- Embedding of `_get_type_ex` from `src/json2openapi.py`.  The global
flag `_example` is passed explicitly as the first argument.  The chain of
`isinstance` tests is kept in the source's order: `None`, `str`, `int`,
`float`, `bool`, other. -/
def getTypeEx (ex : Bool) (val : Json) : Json :=
  let te : String × Json :=
    if isNone val then ("string", Json.str "")
    else if isInstStr val then ("string", val)
    else if isInstInt val then ("integer", val)
    else if isInstFloat val then ("number", val)
    else if isInstBool val then ("boolean", val)
    else ("", val)
  if ex then Json.obj [(.str "type", .str te.1), (.str "example", te.2)]
  else Json.obj [(.str "type", .str te.1)]

mutual

/-- Embedding of `_gen_schema` from `src/json2openapi.py`: dict values
become object schemas over their recursively generated properties, lists
become array schemas whose `items` is `{}` for an empty list and the
schema of element 0 otherwise, and everything else is handed to
`_get_type_ex`. -/
def genSchema (ex : Bool) : Json → Json
  | .obj kvs =>
      Json.obj [(.str "type", .str "object"),
                (.str "properties", Json.obj (genProps ex kvs))]
  | .arr l =>
      match l with
      | [] => Json.obj [(.str "type", .str "array"), (.str "items", .obj [])]
      | x :: _ => Json.obj [(.str "type", .str "array"),
                            (.str "items", genSchema ex x)]
  | v => getTypeEx ex v

/-- The `for key, val in data.items()` loop of `_gen_schema`: each value
is replaced by its generated schema, keys and order unchanged. -/
def genProps (ex : Bool) : List (JKey × Json) → List (JKey × Json)
  | [] => []
  | (k, v) :: rest => (k, genSchema ex v) :: genProps ex rest

end

/-- Python truthiness of a decoded value, as tested by `if request_load:`
and `if response_load:` in `main`: `None`, `False`, `0`, `0.0`, `""`, `[]`
and `{}` are falsy, everything else is truthy. -/
def truthy : Json → Bool
  | .null => false
  | .bool b => b
  | .int n => n != 0
  | .float q => q != 0
  | .str s => s != ""
  | .arr l => !l.isEmpty
  | .obj kvs => !kvs.isEmpty

/-- Lookup in an association list standing for a Python dict
(`d[key]`; `null` stands in for the impossible missing-key case, which
never arises in `main`: every key read there was written first). -/
def getEntry : List (JKey × Json) → JKey → Json
  | [], _ => .null
  | (k, v) :: rest, key => if k = key then v else getEntry rest key

/-- Python `d[key] = v`: replace the value in place when the key is
present (its position is unchanged), append the binding otherwise. -/
def setEntry : List (JKey × Json) → JKey → Json → List (JKey × Json)
  | [], key, v => [(key, v)]
  | (k, w) :: rest, key, v =>
      if k = key then (key, v) :: rest else (k, w) :: setEntry rest key v

/-- Python `del d[key]`: drop the binding, keeping the order of the rest. -/
def delEntry : List (JKey × Json) → JKey → List (JKey × Json)
  | [], _ => []
  | (k, w) :: rest, key => if k = key then rest else (k, w) :: delEntry rest key

/-- `d[key]` on a `Json` that is a dict. -/
def dictGet (j : Json) (key : JKey) : Json :=
  match j with
  | .obj kvs => getEntry kvs key
  | _ => .null

/-- `d[key] = v` on a `Json` that is a dict. -/
def dictSet (j : Json) (key : JKey) (v : Json) : Json :=
  match j with
  | .obj kvs => .obj (setEntry kvs key v)
  | _ => j

/-- `del d[key]` on a `Json` that is a dict. -/
def dictDel (j : Json) (key : JKey) : Json :=
  match j with
  | .obj kvs => .obj (delEntry kvs key)
  | _ => j

/-- Mutation of a nested dict entry: `d[key]` is read, transformed, and
written back, as the chained subscripts of `main` do on the nested
document. -/
def dictUpd (j : Json) (key : JKey) (f : Json → Json) : Json :=
  dictSet j key (f (dictGet j key))

/-- The warnings `main` can print while assembling the document. -/
inductive Warn where
  | requestInvalid
  | responseInvalid
deriving DecidableEq, Repr

/-- Embedding of `_load_file` from `src/json2openapi.py`, with the two
external decoders passed as functions: `jsonParse` models `json.load`
with `JSONDecodeError` mapped to `none`, `yamlParse` models
`yaml.safe_load` with `YAMLError` mapped to `none`.  JSON is tried first;
on failure the same text is re-read as YAML. -/
def loadFile (jsonParse yamlParse : String → Option Json) (s : String) :
    Option Json :=
  match jsonParse s with
  | some v => some v
  | none => yamlParse s

/-- The document-assembly part of `main` from `src/json2openapi.py`.
`requestLoad`/`responseLoad` are `none` when the corresponding CLI option
was not given, and `some r` when it was, with `r` the result of
`_load_file` on the named file.  Returns the assembled document together
with the warnings printed. -/
def buildDoc (method path : String) (respCode : Int) (mediaType : String)
    (ex : Bool) (requestLoad responseLoad : Option (Option Json)) :
    Json × List Warn :=
  let m := method.toLower
  let oapi : Json := .obj [
    (.str "openapi", .str "3.0.0"),
    (.str "info", .obj [
      (.str "title", .str "Generated by json2openapi"),
      (.str "version", .str "v1")]),
    (.str "paths", .obj [
      (.str path, .obj [
        (.str m, .obj [
          (.str "requestBody", .null),
          (.str "responses", .obj [
            (.int respCode, .obj [
              (.str "description", .str "")])])])])])]
  let (oapi, warns) :=
    match requestLoad with
    | some (some v) =>
        if truthy v then
          (dictUpd oapi (.str "paths") (fun ps =>
            dictUpd ps (.str path) (fun pi =>
              dictUpd pi (.str m) (fun op =>
                dictSet op (.str "requestBody") (.obj [
                  (.str "content", .obj [
                    (.str mediaType, .obj [
                      (.str "schema", genSchema ex v)])])])))), ([] : List Warn))
        else (oapi, [.requestInvalid])
    | some none => (oapi, [.requestInvalid])
    | none =>
        (dictUpd oapi (.str "paths") (fun ps =>
          dictUpd ps (.str path) (fun pi =>
            dictUpd pi (.str m) (fun op =>
              dictDel op (.str "requestBody")))), [])
  match responseLoad with
  | some (some v) =>
      if truthy v then
        (dictUpd oapi (.str "paths") (fun ps =>
          dictUpd ps (.str path) (fun pi =>
            dictUpd pi (.str m) (fun op =>
              dictUpd op (.str "responses") (fun rs =>
                dictUpd rs (.int respCode) (fun r =>
                  dictSet r (.str "content") (.obj [
                    (.str mediaType, .obj [
                      (.str "schema", genSchema ex v)])])))))), warns)
      else (oapi, warns ++ [.responseInvalid])
  | some none => (oapi, warns ++ [.responseInvalid])
  | none => (oapi, warns)

/-- What `main` does after assembly: either the document is printed or
written (`output`), or validation failed and `main` returned with no
output (`validationError`). -/
inductive MainResult where
  | output : Json → MainResult
  | validationError : String → MainResult
deriving Repr

/-- The tail of `main`: the assembled document is handed to the external
OpenAPI validator (`OpenAPI(oapi)` of the `openapi3` library, modelled as
the oracle `validate`: `none` for success, `some msg` for a `SpecError`
with message `msg`).  On a `SpecError`, `main` prints the message and
returns without producing output; otherwise the document is emitted. -/
def runMain (validate : Json → Option String)
    (method path : String) (respCode : Int) (mediaType : String)
    (ex : Bool) (requestLoad responseLoad : Option (Option Json)) :
    MainResult × List Warn :=
  let bd := buildDoc method path respCode mediaType ex requestLoad responseLoad
  match validate bd.1 with
  | some msg => (.validationError msg, bd.2)
  | none => (.output bd.1, bd.2)

/-- The keys of a dict, in order. -/
def jsonKeys : Json → List JKey
  | .obj kvs => kvs.map Prod.fst
  | _ => []

/-- Modelled from the spec: the YAML/JSON serializer (external to the
repository) renders every mapping key as text; a string key is rendered
as itself and an integer key as its decimal numeral. -/
def jkeyToString : JKey → String
  | .str s => s
  | .int n => toString n

/-- The `responses` mapping of the single operation of a built document. -/
def responsesOf (doc : Json) (path m : String) : Json :=
  dictGet (dictGet (dictGet (dictGet doc (.str "paths")) (.str path)) (.str m))
    (.str "responses")

/-- The `genProps` loop maps each property value to its schema, keeping
keys and their order. -/
theorem genProps_eq_map (ex : Bool) (kvs : List (JKey × Json)) :
    genProps ex kvs = kvs.map (fun kv => (kv.1, genSchema ex kv.2)) := by
  induction kvs with
  | nil => simp [genProps]
  | cons kv rest ih => cases kv; simp [genProps, ih]

/-- C1: contrary to the claim, the boolean check is performed after the
integer check, and since a Python `bool` satisfies `isinstance(val, int)`,
both `True` and `False` are classified as `"integer"`, never as
`"boolean"`: the `"boolean"` branch of `_get_type_ex` is unreachable. -/
theorem boolean_classified_as_integer :
    getTypeEx true (.bool true) =
      Json.obj [(.str "type", .str "integer"), (.str "example", .bool true)]
  ∧ getTypeEx true (.bool false) =
      Json.obj [(.str "type", .str "integer"), (.str "example", .bool false)]
  ∧ getTypeEx false (.bool true) = Json.obj [(.str "type", .str "integer")]
  ∧ genSchema true (.bool true) =
      Json.obj [(.str "type", .str "integer"), (.str "example", .bool true)]
  ∧ genSchema true (.bool true) ≠
      Json.obj [(.str "type", .str "boolean"), (.str "example", .bool true)] := by
  refine ⟨rfl, rfl, rfl, ?_, ?_⟩ <;>
    simp [genSchema, getTypeEx, isNone, isInstStr, isInstInt, isInstFloat,
      isInstBool]

/-- C2: for every scalar of the claim's type map, inference yields exactly
`{type: T(v), example: v}` with examples enabled (with `""` as the example
for `null`) and exactly `{type: T(v)}` with examples disabled, where
`T` maps null and strings to `"string"`, ints to `"integer"` and floats
to `"number"`. -/
theorem scalar_type_example_map :
    (∀ ex : Bool, genSchema ex .null =
      (if ex then Json.obj [(.str "type", .str "string"), (.str "example", .str "")]
       else Json.obj [(.str "type", .str "string")]))
  ∧ (∀ (ex : Bool) (s : String), genSchema ex (.str s) =
      (if ex then Json.obj [(.str "type", .str "string"), (.str "example", .str s)]
       else Json.obj [(.str "type", .str "string")]))
  ∧ (∀ (ex : Bool) (n : Int), genSchema ex (.int n) =
      (if ex then Json.obj [(.str "type", .str "integer"), (.str "example", .int n)]
       else Json.obj [(.str "type", .str "integer")]))
  ∧ (∀ (ex : Bool) (q : Rat), genSchema ex (.float q) =
      (if ex then Json.obj [(.str "type", .str "number"), (.str "example", .float q)]
       else Json.obj [(.str "type", .str "number")])) := by
  refine ⟨fun ex => ?_, fun ex s => ?_, fun ex n => ?_, fun ex q => ?_⟩ <;>
    cases ex <;>
    simp [genSchema, getTypeEx, isNone, isInstStr, isInstInt, isInstFloat,
      isInstBool]

/-- C3: an empty sequence infers to `{type: "array", items: {}}`, and a
non-empty sequence infers to `{type: "array", items: infer(first)}` — the
result is a function of the head alone, the tail does not occur in it. -/
theorem array_schema_first_element_only :
    (∀ ex : Bool, genSchema ex (.arr []) =
      Json.obj [(.str "type", .str "array"), (.str "items", .obj [])])
  ∧ (∀ (ex : Bool) (x : Json) (rest : List Json),
      genSchema ex (.arr (x :: rest)) =
        Json.obj [(.str "type", .str "array"), (.str "items", genSchema ex x)]) := by
  refine ⟨fun ex => ?_, fun ex x rest => ?_⟩ <;> simp [genSchema]

/-- C4: a mapping infers to `{type: "object", properties: ...}` where the
properties are exactly the source entries, in the same order, with each
value replaced by its inferred schema. -/
theorem object_schema_preserves_key_order (ex : Bool)
    (kvs : List (JKey × Json)) :
    genSchema ex (.obj kvs) =
      Json.obj [(.str "type", .str "object"),
        (.str "properties",
          Json.obj (kvs.map (fun kv => (kv.1, genSchema ex kv.2))))] := by
  simp [genSchema, genProps_eq_map]

/-- C5: a build with neither a request nor a response payload yields the
skeleton document whose operation has no `requestBody` key (it is
deleted) and whose responses mapping is the single entry
`code ↦ {description: ""}`, with no warnings. -/
theorem build_without_payloads (method path : String) (respCode : Int)
    (mt : String) (ex : Bool) :
    buildDoc method path respCode mt ex none none =
    (Json.obj [
      (.str "openapi", .str "3.0.0"),
      (.str "info", .obj [
        (.str "title", .str "Generated by json2openapi"),
        (.str "version", .str "v1")]),
      (.str "paths", .obj [
        (.str path, .obj [
          (.str method.toLower, .obj [
            (.str "responses", .obj [
              (.int respCode, .obj [
                (.str "description", .str "")])])])])])], []) := by
  simp [buildDoc, dictUpd, dictGet, dictSet, dictDel, getEntry, setEntry,
    delEntry]

/-- C6: when both supplied payloads decode as neither JSON nor YAML
(`_load_file` yields nothing), assembly still completes: a warning is
recorded for each, no `schema` (and no `content`) node appears anywhere,
and the rest of the document is the same skeleton (the `requestBody` slot
keeps its placeholder `null` value and carries no schema). -/
theorem malformed_payload_soft_skip (jp yp : String → Option Json)
    (s1 s2 : String) (h1 : jp s1 = none) (h2 : yp s1 = none)
    (h3 : jp s2 = none) (h4 : yp s2 = none)
    (method path : String) (respCode : Int) (mt : String) (ex : Bool) :
    buildDoc method path respCode mt ex
        (some (loadFile jp yp s1)) (some (loadFile jp yp s2)) =
    (Json.obj [
      (.str "openapi", .str "3.0.0"),
      (.str "info", .obj [
        (.str "title", .str "Generated by json2openapi"),
        (.str "version", .str "v1")]),
      (.str "paths", .obj [
        (.str path, .obj [
          (.str method.toLower, .obj [
            (.str "requestBody", .null),
            (.str "responses", .obj [
              (.int respCode, .obj [
                (.str "description", .str "")])])])])])],
     [Warn.requestInvalid, Warn.responseInvalid]) := by
  simp [loadFile, h1, h2, h3, h4, buildDoc]

/-- Witness for C6 at concrete decoders that fail on everything. -/
theorem malformed_payload_soft_skip_witness :
    buildDoc "GET" "/employees" 200 "application/json" true
        (some (loadFile (fun _ => none) (fun _ => none) "not json"))
        (some (loadFile (fun _ => none) (fun _ => none) "not yaml")) =
    (Json.obj [
      (.str "openapi", .str "3.0.0"),
      (.str "info", .obj [
        (.str "title", .str "Generated by json2openapi"),
        (.str "version", .str "v1")]),
      (.str "paths", .obj [
        (.str "/employees", .obj [
          (.str "GET".toLower, .obj [
            (.str "requestBody", .null),
            (.str "responses", .obj [
              (.int 200, .obj [
                (.str "description", .str "")])])])])])],
     [Warn.requestInvalid, Warn.responseInvalid]) :=
  malformed_payload_soft_skip (fun _ => none) (fun _ => none)
    "not json" "not yaml" rfl rfl rfl rfl "GET" "/employees" 200
    "application/json" true

/-- C7: when the external validator rejects the assembled document, the
run ends in `validationError` carrying the validator's message and no
output document; and when the validator accepts, a run whose payloads
merely failed to decode still produces an output document, with the
decode failures only recorded as warnings. -/
theorem validation_failure_hard_abort :
    (∀ (validate : Json → Option String) (method path : String)
       (respCode : Int) (mt : String) (ex : Bool)
       (req rsp : Option (Option Json)) (msg : String),
       validate (buildDoc method path respCode mt ex req rsp).1 = some msg →
       (runMain validate method path respCode mt ex req rsp).1 =
         .validationError msg)
  ∧ (∀ (validate : Json → Option String) (method path : String)
       (respCode : Int) (mt : String) (ex : Bool),
       validate (buildDoc method path respCode mt ex
           (some none) (some none)).1 = none →
       runMain validate method path respCode mt ex (some none) (some none) =
         (.output (buildDoc method path respCode mt ex
             (some none) (some none)).1,
          [Warn.requestInvalid, Warn.responseInvalid])) := by
  constructor
  · intro validate method path respCode mt ex req rsp msg h
    simp [runMain, h]
  · intro validate method path respCode mt ex h
    simp only [runMain]
    rw [h]
    simp [buildDoc]

/-- Witness for C7: a validator that always rejects yields the hard
abort with its message; a validator that always accepts turns the same
decode-failed build into an output document with two warnings. -/
theorem validation_failure_hard_abort_witness :
    (runMain (fun _ => some "boom") "GET" "/employees" 200
        "application/json" true none none).1 =
      MainResult.validationError "boom"
  ∧ runMain (fun _ => none) "GET" "/employees" 200 "application/json" true
        (some none) (some none) =
      (.output (buildDoc "GET" "/employees" 200 "application/json" true
          (some none) (some none)).1,
       [Warn.requestInvalid, Warn.responseInvalid]) :=
  ⟨validation_failure_hard_abort.1 (fun _ => some "boom") "GET" "/employees"
      200 "application/json" true none none "boom" rfl,
   validation_failure_hard_abort.2 (fun _ => none) "GET" "/employees" 200
      "application/json" true rfl⟩

/-- C8: a payload given as JSON text and a payload given as YAML text
that decode to the same value produce identical runs, whether the payload
is the request or the response: the build depends only on the decoded
value, not on which stage of `_load_file` produced it. -/
theorem json_yaml_decode_equivalent (jp yp : String → Option Json)
    (s1 s2 : String) (v : Json)
    (h1 : jp s1 = some v) (h2 : jp s2 = none) (h3 : yp s2 = some v)
    (validate : Json → Option String) (method path : String)
    (respCode : Int) (mt : String) (ex : Bool) :
    runMain validate method path respCode mt ex
        (some (loadFile jp yp s1)) none =
      runMain validate method path respCode mt ex
        (some (loadFile jp yp s2)) none
  ∧ runMain validate method path respCode mt ex
        none (some (loadFile jp yp s1)) =
      runMain validate method path respCode mt ex
        none (some (loadFile jp yp s2)) := by
  have e1 : loadFile jp yp s1 = some v := by simp [loadFile, h1]
  have e2 : loadFile jp yp s2 = some v := by simp [loadFile, h2, h3]
  rw [e1, e2]
  exact ⟨rfl, rfl⟩

/-- Witness for C8 at concrete decoders: one text only JSON-decodes, the
other only YAML-decodes, both to the value `1`. -/
theorem json_yaml_decode_equivalent_witness :
    runMain (fun _ => none) "GET" "/employees" 200 "application/json" true
        none (some (loadFile
          (fun s => if s = "1" then some (.int 1) else none)
          (fun s => if s = "yaml 1" then some (.int 1) else none) "1")) =
      runMain (fun _ => none) "GET" "/employees" 200 "application/json" true
        none (some (loadFile
          (fun s => if s = "1" then some (.int 1) else none)
          (fun s => if s = "yaml 1" then some (.int 1) else none) "yaml 1")) :=
  (json_yaml_decode_equivalent
    (fun s => if s = "1" then some (.int 1) else none)
    (fun s => if s = "yaml 1" then some (.int 1) else none)
    "1" "yaml 1" (.int 1) (by simp) (by simp) (by simp)
    (fun _ => none) "GET" "/employees" 200 "application/json" true).2

/-- C9: whatever the payloads, the built document keys its responses
mapping by the single integer response code taken from the caller, and
that key is rendered as the code's decimal string by the serializer. -/
theorem response_code_integer_key_stringable (method path : String)
    (respCode : Int) (mt : String) (ex : Bool)
    (requestLoad responseLoad : Option (Option Json)) :
    jsonKeys (responsesOf
        (buildDoc method path respCode mt ex requestLoad responseLoad).1
        path method.toLower) = [JKey.int respCode]
  ∧ jkeyToString (JKey.int respCode) = toString respCode := by
  refine ⟨?_, rfl⟩
  rcases requestLoad with _ | ⟨_ | v⟩ <;> rcases responseLoad with _ | ⟨_ | w⟩ <;>
    simp [buildDoc, responsesOf, dictUpd, dictGet, dictSet, dictDel,
      getEntry, setEntry, delEntry, jsonKeys] <;>
  first
  | (cases hv : truthy v <;> cases hw : truthy w <;>
      simp [hv, hw, dictUpd, dictGet, dictSet, dictDel, getEntry, setEntry,
        delEntry, jsonKeys])
  | (cases hv : truthy v <;>
      simp [hv, dictUpd, dictGet, dictSet, dictDel, getEntry, setEntry,
        delEntry, jsonKeys])
  | (cases hw : truthy w <;>
      simp [hw, dictUpd, dictGet, dictSet, dictDel, getEntry, setEntry,
        delEntry, jsonKeys])

/-- C10: a payload that decodes successfully to a falsy value (empty
dict, empty list, `0`, `0.0`, `False`, `None` or `""`) is treated exactly
like a payload that failed to decode, in either position: same document,
same warning. -/
theorem falsy_payload_treated_as_invalid (v : Json) (h : truthy v = false)
    (method path : String) (respCode : Int) (mt : String) (ex : Bool)
    (other : Option (Option Json)) :
    buildDoc method path respCode mt ex (some (some v)) other =
      buildDoc method path respCode mt ex (some none) other
  ∧ buildDoc method path respCode mt ex other (some (some v)) =
      buildDoc method path respCode mt ex other (some none) := by
  constructor <;> simp [buildDoc, h]

/-- Witness for C10 at the empty object, a valid JSON value that Python
treats as falsy. -/
theorem falsy_payload_treated_as_invalid_witness :
    truthy (Json.obj []) = false
  ∧ (buildDoc "GET" "/employees" 200 "application/json" true
        (some (some (Json.obj []))) none =
      buildDoc "GET" "/employees" 200 "application/json" true
        (some none) none
    ∧ buildDoc "GET" "/employees" 200 "application/json" true
        none (some (some (Json.obj []))) =
      buildDoc "GET" "/employees" 200 "application/json" true
        none (some none)) :=
  ⟨rfl, falsy_payload_treated_as_invalid (Json.obj []) rfl "GET" "/employees"
    200 "application/json" true none⟩

end Json2openapi
